import Mathlib

/-!
Verification of the fixture-consumption core of the execution-spec-tests
repository, as embedded from `src/ethereum_clis/clis/geth.py`,
`src/ethereum_test_fixtures/fixture_consumer.py` and
`src/pytest_plugins/consume/direct/conftest.py`.

The embedding models the pure contents of that code: command construction,
the dispatch on fixture formats, the exception-classification table, the
debug-artifact dump, and the outcome computation of both `consume`
variants.  The external pieces (the spawned child process and the JSON
parser of the standard library) are passed in as explicit function
parameters, so every definition stays executable.
-/

/-- Transaction-level canonical exception kinds used by the geth mapping
table in `GethExceptionMapper._mapping_data`. -/
inductive TransactionException
  | TYPE_4_TX_CONTRACT_CREATION
  | INSUFFICIENT_ACCOUNT_FUNDS
  | TYPE_3_TX_MAX_BLOB_GAS_ALLOWANCE_EXCEEDED
  | INSUFFICIENT_MAX_FEE_PER_BLOB_GAS
  | INSUFFICIENT_MAX_FEE_PER_GAS
  | TYPE_3_TX_PRE_FORK
  | TYPE_3_TX_INVALID_BLOB_VERSIONED_HASH
  | TYPE_3_TX_BLOB_COUNT_EXCEEDED
  | TYPE_3_TX_ZERO_BLOBS
  | INTRINSIC_GAS_TOO_LOW
  | INITCODE_SIZE_EXCEEDED
deriving DecidableEq

/-- Object-format (EOF) canonical exception kinds used by the geth mapping
table in `GethExceptionMapper._mapping_data`. -/
inductive EOFException
  | MISSING_STOP_OPCODE
  | MISSING_CODE_HEADER
  | MISSING_TYPE_HEADER
  | MISSING_TERMINATOR
  | MISSING_HEADERS_TERMINATOR
  | INVALID_VERSION
  | INVALID_NON_RETURNING_FLAG
  | INVALID_MAGIC
  | INVALID_FIRST_SECTION_TYPE
  | INVALID_SECTION_BODIES_SIZE
  | INVALID_TYPE_SECTION_SIZE
  | INCOMPLETE_SECTION_SIZE
  | INCOMPLETE_SECTION_NUMBER
  | TOO_MANY_CODE_SECTIONS
  | ZERO_SECTION_SIZE
  | MISSING_DATA_SECTION
  | UNDEFINED_INSTRUCTION
  | INPUTS_OUTPUTS_NUM_ABOVE_LIMIT
  | UNREACHABLE_INSTRUCTIONS
  | INVALID_RJUMP_DESTINATION
  | UNREACHABLE_CODE_SECTIONS
  | STACK_UNDERFLOW
  | MAX_STACK_HEIGHT_ABOVE_LIMIT
  | STACK_HIGHER_THAN_OUTPUTS
  | JUMPF_DESTINATION_INCOMPATIBLE_OUTPUTS
  | INVALID_MAX_STACK_HEIGHT
  | INVALID_DATALOADN_INDEX
  | TRUNCATED_INSTRUCTION
  | TOPLEVEL_CONTAINER_TRUNCATED
  | ORPHAN_SUBCONTAINER
  | CONTAINER_SIZE_ABOVE_LIMIT
  | INVALID_CONTAINER_SECTION_INDEX
  | INCOMPATIBLE_CONTAINER_KIND
  | STACK_HEIGHT_MISMATCH
  | TOO_MANY_CONTAINERS
  | INVALID_CODE_SECTION_INDEX
deriving DecidableEq

/-- A canonical exception kind: either a transaction-level kind or an
object-format (EOF) kind. -/
inductive ExceptionKind
  | tx (e : TransactionException)
  | eof (e : EOFException)
deriving DecidableEq

/-- An entry of an exception table: a canonical kind paired with the
literal error-text pattern the external client emits for it
(`ExceptionMessage` in the source). -/
structure ExceptionMessage where
  exception : ExceptionKind
  message : String
deriving DecidableEq

/-- The ordered exception table of the geth client, transliterated entry by
entry from `GethExceptionMapper._mapping_data`. -/
def gethMappingData : List ExceptionMessage :=
  [⟨.tx .TYPE_4_TX_CONTRACT_CREATION,
    "set code transaction must not be a create transaction"⟩,
   ⟨.tx .INSUFFICIENT_ACCOUNT_FUNDS,
    "insufficient funds for gas * price + value"⟩,
   ⟨.tx .TYPE_3_TX_MAX_BLOB_GAS_ALLOWANCE_EXCEEDED,
    "would exceed maximum allowance"⟩,
   ⟨.tx .INSUFFICIENT_MAX_FEE_PER_BLOB_GAS,
    "max fee per blob gas less than block blob gas fee"⟩,
   ⟨.tx .INSUFFICIENT_MAX_FEE_PER_GAS,
    "max fee per gas less than block base fee"⟩,
   ⟨.tx .TYPE_3_TX_PRE_FORK,
    "blob tx used but field env.ExcessBlobGas missing"⟩,
   ⟨.tx .TYPE_3_TX_INVALID_BLOB_VERSIONED_HASH,
    "has invalid hash version"⟩,
   ⟨.tx .TYPE_3_TX_BLOB_COUNT_EXCEEDED,
    "exceed maximum allowance"⟩,
   ⟨.tx .TYPE_3_TX_ZERO_BLOBS,
    "blob transaction missing blob hashes"⟩,
   ⟨.tx .INTRINSIC_GAS_TOO_LOW,
    "intrinsic gas too low"⟩,
   ⟨.tx .INITCODE_SIZE_EXCEEDED,
    "max initcode size exceeded"⟩,
   ⟨.eof .MISSING_STOP_OPCODE, "err: no_terminating_instruction"⟩,
   ⟨.eof .MISSING_CODE_HEADER, "err: code_section_missing"⟩,
   ⟨.eof .MISSING_TYPE_HEADER, "err: type_section_missing"⟩,
   ⟨.eof .MISSING_TERMINATOR, "err: header_terminator_missing"⟩,
   ⟨.eof .MISSING_HEADERS_TERMINATOR, "err: section_headers_not_terminated"⟩,
   ⟨.eof .INVALID_VERSION, "err: eof_version_unknown"⟩,
   ⟨.eof .INVALID_NON_RETURNING_FLAG, "err: invalid_non_returning_flag"⟩,
   ⟨.eof .INVALID_MAGIC, "err: invalid_prefix"⟩,
   ⟨.eof .INVALID_FIRST_SECTION_TYPE, "err: invalid_first_section_type"⟩,
   ⟨.eof .INVALID_SECTION_BODIES_SIZE, "err: invalid_section_bodies_size"⟩,
   ⟨.eof .INVALID_TYPE_SECTION_SIZE, "err: invalid_type_section_size"⟩,
   ⟨.eof .INCOMPLETE_SECTION_SIZE, "err: incomplete_section_size"⟩,
   ⟨.eof .INCOMPLETE_SECTION_NUMBER, "err: incomplete_section_number"⟩,
   ⟨.eof .TOO_MANY_CODE_SECTIONS, "err: too_many_code_sections"⟩,
   ⟨.eof .ZERO_SECTION_SIZE, "err: zero_section_size"⟩,
   ⟨.eof .MISSING_DATA_SECTION, "err: data_section_missing"⟩,
   ⟨.eof .UNDEFINED_INSTRUCTION, "err: undefined_instruction"⟩,
   ⟨.eof .INPUTS_OUTPUTS_NUM_ABOVE_LIMIT, "err: inputs_outputs_num_above_limit"⟩,
   ⟨.eof .UNREACHABLE_INSTRUCTIONS, "err: unreachable_instructions"⟩,
   ⟨.eof .INVALID_RJUMP_DESTINATION, "err: invalid_rjump_destination"⟩,
   ⟨.eof .UNREACHABLE_CODE_SECTIONS, "err: unreachable_code_sections"⟩,
   ⟨.eof .STACK_UNDERFLOW, "err: stack_underflow"⟩,
   ⟨.eof .MAX_STACK_HEIGHT_ABOVE_LIMIT, "err: max_stack_height_above_limit"⟩,
   ⟨.eof .STACK_HIGHER_THAN_OUTPUTS, "err: stack_higher_than_outputs_required"⟩,
   ⟨.eof .JUMPF_DESTINATION_INCOMPATIBLE_OUTPUTS,
    "err: jumpf_destination_incompatible_outputs"⟩,
   ⟨.eof .INVALID_MAX_STACK_HEIGHT, "err: invalid_max_stack_height"⟩,
   ⟨.eof .INVALID_DATALOADN_INDEX, "err: invalid_dataloadn_index"⟩,
   ⟨.eof .TRUNCATED_INSTRUCTION, "err: truncated_instruction"⟩,
   ⟨.eof .TOPLEVEL_CONTAINER_TRUNCATED, "err: toplevel_container_truncated"⟩,
   ⟨.eof .ORPHAN_SUBCONTAINER, "err: unreferenced_subcontainer"⟩,
   ⟨.eof .CONTAINER_SIZE_ABOVE_LIMIT, "err: container_size_above_limit"⟩,
   ⟨.eof .INVALID_CONTAINER_SECTION_INDEX, "err: invalid_container_section_index"⟩,
   ⟨.eof .INCOMPATIBLE_CONTAINER_KIND, "err: incompatible_container_kind"⟩,
   ⟨.eof .STACK_HEIGHT_MISMATCH, "err: stack_height_mismatch"⟩,
   ⟨.eof .TOO_MANY_CONTAINERS, "err: too_many_container_sections"⟩,
   ⟨.eof .INVALID_CODE_SECTION_INDEX, "err: invalid_code_section_index"⟩]

/-- Whether the pattern matches at the very start of the text (character
list form). -/
def matchesAt : List Char → List Char → Bool
  | [], _ => true
  | _ :: _, [] => false
  | a :: as, b :: bs => a == b && matchesAt as bs

/-- Whether the pattern occurs somewhere inside the text (character list
form); this is the semantics of Python's `pattern in text`. -/
def occursIn (pat : List Char) : List Char → Bool
  | [] => pat.isEmpty
  | b :: bs => matchesAt pat (b :: bs) || occursIn pat bs

/-- Whether `pat` is a substring of `text`, the containment test used by
the exception mapper. -/
def containsSubstring (pat text : String) : Bool :=
  occursIn pat.data text.data

/-- Modelled from the spec: the `ExceptionMapper` base class lives in the
`ethereum_test_exceptions` package, which is not under `src/`; per the spec
it performs a linear scan of the ordered exception table and returns the
canonical kind of the first entry whose pattern is a substring of the raw
error text, or none (the "unmapped" outcome) when no pattern matches. -/
def messageToKind (table : List ExceptionMessage) (text : String) : Option ExceptionKind :=
  (table.find? fun m => containsSubstring m.message text).map ExceptionMessage.exception

/-- The result of a finished child process as captured by
`GethEvm._run_command` via `subprocess.run`: exit code, captured standard
output and captured standard error. -/
structure CompletedProcess where
  returncode : Int
  stdout : String
  stderr : String

/-- A parsed JSON value, the result type of the standard library's
`json.loads` used by `GethStatetest.consume`. -/
inductive JsonValue
  | null
  | bool (b : Bool)
  | num (n : Int)
  | str (s : String)
  | arr (xs : List JsonValue)
  | obj (fields : List (String × JsonValue))

/-- The closed set of fixture formats registered in
`ethereum_test_fixtures.FIXTURE_FORMATS`. -/
inductive FixtureFormat
  | blockchainFixture
  | blockchainEngineFixture
  | eofFixture
  | stateFixture
deriving DecidableEq

/-- The errors raised by the consumption code: `invocation` for a nonzero
exit code (the exception of `consume` with its message), `jsonDecode` for
standard output that is not valid JSON, `resultParse` for a parsed
top-level value that is not a list, and `unsupportedFormat` for a fixture
format `GethFixtureConsumer.consume_fixture` cannot dispatch. -/
inductive ConsumeError
  | invocation (message : String)
  | jsonDecode
  | resultParse (value : JsonValue)
  | unsupportedFormat (format : FixtureFormat)

/-- The text written by the debug dump for one artifact file: the raw
argument list, the numeric exit code, or plain text. -/
inductive ArtifactContent
  | args (command : List String)
  | code (returncode : Int)
  | text (s : String)

/-- One observable run of a `consume` call: the commands spawned, the
debug bundle written (when a debug directory was requested), and the
returned value or raised error. -/
structure ConsumeRun where
  spawned : List (List String)
  debugDump : Option (List (String × ArtifactContent))
  outcome : Except ConsumeError JsonValue

/-- The `blocktest` subcommand constant of `GethBlocktest`. -/
def blocktestSubcommand : String := "blocktest"

/-- The `statetest` subcommand constant of `GethStatetest`. -/
def statetestSubcommand : String := "statetest"

/-- The command line built by `GethStatetest.consume`: the binary, the
debug flags when a debug output path is given, the subcommand, then the
fixture path. -/
def gethStatetestCommand (binary fixturePath : String)
    (debugOutputPath : Option String) : List String :=
  let command := [binary]
  let command := match debugOutputPath with
    | some _ => command ++ ["--debug", "--json", "--verbosity", "100"]
    | none => command
  command ++ [statetestSubcommand, fixturePath]

/-- The command line built by `GethBlocktest.consume`: the binary, the
debug flags when a debug output path is given, the subcommand, the
optional case-name filter, then the fixture path. -/
def gethBlocktestCommand (binary fixturePath : String)
    (fixtureName : Option String) (debugOutputPath : Option String) : List String :=
  let command := [binary]
  let command := match debugOutputPath with
    | some _ => command ++ ["--debug", "--json", "--verbosity", "100"]
    | none => command
  let command := command ++ [blocktestSubcommand]
  let command := match fixtureName with
    | some name => command ++ ["--run", name]
    | none => command
  command ++ [fixturePath]

/-- The message of the exception raised by both `consume` variants on a
nonzero exit code, built exactly as their f-string does. -/
def invocationMessage (command : List String) (stderr : String) : String :=
  "Unexpected exit code:\n" ++ String.intercalate " " command ++
    "\n\n Error:\n" ++ stderr

/-- The debug bundle written by `GethEvm._consume_debug_dump` into the
debug output directory: the argument list, the exit code, the captured
standard output and standard error, the reproduction shell script, and a
byte-identical copy of the consumed fixture file.  The file-writing
helper `dump_files_to_directory` is not under `src/`; modelled from the
spec, it persists each named value into the directory, so the bundle is
represented as the list of (file name, content) pairs. -/
def consumeDebugDump (command : List String) (result : CompletedProcess)
    (fixtureContent : String) (debugOutputPath : String) :
    List (String × ArtifactContent) :=
  let debugFixturePath := debugOutputPath ++ "/fixtures.json"
  let consumeDirectCall :=
    String.intercalate " " command.dropLast ++ " " ++ debugFixturePath
  let consumeDirectScript := "#!/bin/bash\n" ++ consumeDirectCall ++ "\n"
  [("consume_direct_args.py", .args command),
   ("consume_direct_returncode.txt", .code result.returncode),
   ("consume_direct_stdout.txt", .text result.stdout),
   ("consume_direct_stderr.txt", .text result.stderr),
   ("consume_direct.sh+x", .text consumeDirectScript),
   ("fixtures.json", .text fixtureContent)]

/-- `GethBlocktest.consume`: build the command, spawn it, dump the debug
bundle when a debug directory is given, raise on a nonzero exit code, and
return the empty list on success (there is no parseable format for
blocktest output).  The spawned child process is the `runCommand`
parameter; `fixtureContent` is the byte content of the fixture file at
`fixturePath`. -/
def gethBlocktestConsume (binary fixturePath : String)
    (fixtureName : Option String) (debugOutputPath : Option String)
    (runCommand : List String → CompletedProcess)
    (fixtureContent : String) : ConsumeRun :=
  let command := gethBlocktestCommand binary fixturePath fixtureName debugOutputPath
  let result := runCommand command
  let dump := debugOutputPath.map (consumeDebugDump command result fixtureContent)
  if result.returncode ≠ 0 then
    ⟨[command], dump, .error (.invocation (invocationMessage command result.stderr))⟩
  else
    ⟨[command], dump, .ok (.arr [])⟩

/-- `GethStatetest.consume`: build the command, spawn it, dump the debug
bundle when a debug directory is given, raise on a nonzero exit code,
parse standard output as JSON (`jsonLoads` is the standard library's
`json.loads`, returning none on invalid JSON, where the source raises a
decode error), and raise unless the parsed value is a list. -/
def gethStatetestConsume (binary fixturePath : String)
    (debugOutputPath : Option String)
    (runCommand : List String → CompletedProcess)
    (jsonLoads : String → Option JsonValue)
    (fixtureContent : String) : ConsumeRun :=
  let command := gethStatetestCommand binary fixturePath debugOutputPath
  let result := runCommand command
  let dump := debugOutputPath.map (consumeDebugDump command result fixtureContent)
  if result.returncode ≠ 0 then
    ⟨[command], dump, .error (.invocation (invocationMessage command result.stderr))⟩
  else
    match jsonLoads result.stdout with
    | none => ⟨[command], dump, .error .jsonDecode⟩
    | some (.arr xs) => ⟨[command], dump, .ok (.arr xs)⟩
    | some v => ⟨[command], dump, .error (.resultParse v)⟩

/-- `GethFixtureConsumer.consume_fixture`: route a state fixture to the
statetest runner (dropping the fixture name), a blockchain fixture to the
blocktest runner, and raise for every other format without spawning
anything. -/
def gethConsumeFixture (binary : String) (fixtureFormat : FixtureFormat)
    (fixturePath : String) (fixtureName : Option String)
    (debugOutputPath : Option String)
    (runCommand : List String → CompletedProcess)
    (jsonLoads : String → Option JsonValue)
    (fixtureContent : String) : ConsumeRun :=
  match fixtureFormat with
  | .stateFixture =>
      gethStatetestConsume binary fixturePath debugOutputPath runCommand
        jsonLoads fixtureContent
  | .blockchainFixture =>
      gethBlocktestConsume binary fixturePath fixtureName debugOutputPath
        runCommand fixtureContent
  | fmt => ⟨[], none, .error (.unsupportedFormat fmt)⟩

/-- The binary-role configuration of a `FixtureConsumer` as set by its
`__init__`: an optional binary path per fixture-format role. -/
structure FixtureConsumerConfig where
  statetest_binary : Option String
  blocktest_binary : Option String
  eoftest_binary : Option String

/-- `FixtureConsumer.is_consumable`: a format is consumable exactly when
the matching binary role was configured; any other format is not. -/
def is_consumable (c : FixtureConsumerConfig) (fixtureFormat : FixtureFormat) : Bool :=
  if fixtureFormat = .stateFixture then
    c.statetest_binary.isSome
  else if fixtureFormat = .blockchainFixture then
    c.blocktest_binary.isSome
  else if fixtureFormat = .eofFixture then
    c.eoftest_binary.isSome
  else
    false

/-- The configuration installed by `GethFixtureConsumer.__init__`, which
passes the same binary for the statetest and blocktest roles and leaves
the eoftest role unset. -/
def gethConsumerConfig (binary : String) : FixtureConsumerConfig :=
  ⟨some binary, some binary, none⟩

/-- The fixture formats for which `GethFixtureConsumer.consume_fixture`
has an implemented runner. -/
def gethImplementedFormats : List FixtureFormat :=
  [.stateFixture, .blockchainFixture]

/-- `run_single_test` as computed by `pytest_configure` in the direct
consume plugin: whether the probed blocktest help text advertises the
`--run` filter. -/
def runSingleTest (helpString : String) : Bool :=
  containsSubstring "--run" helpString

/-- Modelled from the spec: the direct consume test runner that calls the
chain-test consumer is not under `src/`; per the spec it forwards the
caller-supplied case name to `GethBlocktest.consume` only when the probed
binary advertises support for the case filter (`run_single_test`), and
silently omits the name filter otherwise. -/
def directBlocktestConsume (binary helpString fixturePath : String)
    (caseName : Option String) (debugOutputPath : Option String)
    (runCommand : List String → CompletedProcess)
    (fixtureContent : String) : ConsumeRun :=
  gethBlocktestConsume binary fixturePath
    (if runSingleTest helpString then caseName else none)
    debugOutputPath runCommand fixtureContent

/-- A linear scan returns the element at index `i` whenever the predicate
holds there and fails at every earlier index. -/
theorem find?_first_match {α : Type} (l : List α) (p : α → Bool) :
    ∀ (i : Nat) (hi : i < l.length), p (l.get ⟨i, hi⟩) = true →
    (∀ (j : Nat) (hj : j < i), p (l.get ⟨j, Nat.lt_trans hj hi⟩) = false) →
    l.find? p = some (l.get ⟨i, hi⟩) := by
  induction l with
  | nil =>
    intro i hi
    exact absurd hi (Nat.not_lt_zero i)
  | cons a as ih =>
    intro i hi hp hfirst
    cases i with
    | zero =>
      have ha : p a = true := hp
      simp [List.find?, ha]
    | succ i =>
      have ha : p a = false := hfirst 0 (Nat.succ_pos i)
      have hstep : List.find? p (a :: as) = List.find? p as := by
        simp [List.find?, ha]
      rw [hstep]
      exact ih i (Nat.lt_of_succ_lt_succ hi) hp
        (fun j hj => hfirst (j + 1) (Nat.succ_lt_succ hj))

/-- C1: classification against the geth exception table is
first-match-wins by linear scan: a raw error text containing the pattern
of entry `i` and no pattern of any earlier entry classifies to entry
`i`'s canonical kind, and a text containing no pattern of any entry
classifies to none ("unmapped"). -/
theorem geth_mapping_first_match :
    (∀ (i : Nat) (hi : i < gethMappingData.length) (text : String),
      containsSubstring (gethMappingData.get ⟨i, hi⟩).message text = true →
      (∀ (j : Nat) (hj : j < i),
        containsSubstring (gethMappingData.get ⟨j, Nat.lt_trans hj hi⟩).message text
          = false) →
      messageToKind gethMappingData text
        = some (gethMappingData.get ⟨i, hi⟩).exception)
    ∧ (∀ text : String,
      (∀ m ∈ gethMappingData, containsSubstring m.message text = false) →
      messageToKind gethMappingData text = none) := by
  constructor
  · intro i hi text hp hfirst
    unfold messageToKind
    rw [find?_first_match gethMappingData _ i hi hp hfirst]
    rfl
  · intro text hnone
    unfold messageToKind
    rw [List.find?_eq_none.mpr (fun m hm => by simp [hnone m hm])]
    rfl

/-- Witness for C1: the exact pattern of the first table entry classifies
to that entry's kind, and a text matching no pattern is unmapped. -/
theorem geth_mapping_first_match_witness :
    messageToKind gethMappingData
        "set code transaction must not be a create transaction"
      = some (.tx .TYPE_4_TX_CONTRACT_CREATION)
    ∧ messageToKind gethMappingData "all good" = none := by
  constructor
  · exact geth_mapping_first_match.1 0 (by decide) _ (by decide)
      (fun j hj => absurd hj (Nat.not_lt_zero j))
  · exact geth_mapping_first_match.2 _ (by decide)

/-- A concrete failing child process: exit code 1 with captured output. -/
def runFail : List String → CompletedProcess := fun _ => ⟨1, "out", "boom"⟩

/-- A concrete succeeding child process: exit code 0. -/
def runPass : List String → CompletedProcess := fun _ => ⟨0, "[]", ""⟩

/-- A concrete JSON parser rejecting every input. -/
def loadsNone : String → Option JsonValue := fun _ => none

/-- A concrete JSON parser returning a one-element array. -/
def loadsArr : String → Option JsonValue := fun _ => some (.arr [.str "t1"])

/-- A concrete JSON parser returning an empty object. -/
def loadsObj : String → Option JsonValue := fun _ => some (.obj [])

/-- C2: on any nonzero exit code, both `consume` variants raise an
invocation error whose message is built from the full command line and
the captured standard error, the captured standard error appears verbatim
as the final segment of that message, and no result value is returned. -/
theorem consume_nonzero_exit_invocation_error :
    ∀ (binary fixturePath : String) (fixtureName : Option String)
      (debugOutputPath : Option String)
      (runCommand : List String → CompletedProcess)
      (jsonLoads : String → Option JsonValue) (fixtureContent : String),
    ((runCommand (gethStatetestCommand binary fixturePath debugOutputPath)).returncode ≠ 0 →
      (gethStatetestConsume binary fixturePath debugOutputPath runCommand
          jsonLoads fixtureContent).outcome
        = .error (.invocation (invocationMessage
            (gethStatetestCommand binary fixturePath debugOutputPath)
            (runCommand (gethStatetestCommand binary fixturePath debugOutputPath)).stderr))
      ∧ ∀ v, (gethStatetestConsume binary fixturePath debugOutputPath runCommand
          jsonLoads fixtureContent).outcome ≠ .ok v)
    ∧ ((runCommand (gethBlocktestCommand binary fixturePath fixtureName
          debugOutputPath)).returncode ≠ 0 →
      (gethBlocktestConsume binary fixturePath fixtureName debugOutputPath runCommand
          fixtureContent).outcome
        = .error (.invocation (invocationMessage
            (gethBlocktestCommand binary fixturePath fixtureName debugOutputPath)
            (runCommand (gethBlocktestCommand binary fixturePath fixtureName
              debugOutputPath)).stderr))
      ∧ ∀ v, (gethBlocktestConsume binary fixturePath fixtureName debugOutputPath
          runCommand fixtureContent).outcome ≠ .ok v)
    ∧ (∀ (command : List String) (stderr : String),
        ∃ pre, invocationMessage command stderr = pre ++ stderr) := by
  intro binary fixturePath fixtureName debugOutputPath runCommand jsonLoads fixtureContent
  refine ⟨fun h => ?_, fun h => ?_, fun command stderr => ⟨_, rfl⟩⟩
  · have houtcome : (gethStatetestConsume binary fixturePath debugOutputPath runCommand
        jsonLoads fixtureContent).outcome
        = .error (.invocation (invocationMessage
            (gethStatetestCommand binary fixturePath debugOutputPath)
            (runCommand (gethStatetestCommand binary fixturePath debugOutputPath)).stderr)) := by
      simp [gethStatetestConsume, h]
    refine ⟨houtcome, fun v hv => ?_⟩
    rw [houtcome] at hv
    exact Except.noConfusion hv
  · have houtcome : (gethBlocktestConsume binary fixturePath fixtureName debugOutputPath
        runCommand fixtureContent).outcome
        = .error (.invocation (invocationMessage
            (gethBlocktestCommand binary fixturePath fixtureName debugOutputPath)
            (runCommand (gethBlocktestCommand binary fixturePath fixtureName
              debugOutputPath)).stderr)) := by
      simp [gethBlocktestConsume, h]
    refine ⟨houtcome, fun v hv => ?_⟩
    rw [houtcome] at hv
    exact Except.noConfusion hv

/-- Witness for C2: a child exiting 1 with standard error "boom" makes
both variants raise the invocation error built from the command line and
that standard error. -/
theorem consume_nonzero_exit_invocation_error_witness :
    (gethStatetestConsume "evm" "t.json" none runFail loadsNone "{}").outcome
      = .error (.invocation (invocationMessage ["evm", "statetest", "t.json"] "boom"))
    ∧ (gethBlocktestConsume "evm" "t.json" none none runFail "{}").outcome
      = .error (.invocation (invocationMessage ["evm", "blocktest", "t.json"] "boom")) := by
  have h := consume_nonzero_exit_invocation_error "evm" "t.json" none none runFail
    loadsNone "{}"
  exact ⟨(h.1 (by decide)).1, (h.2.1 (by decide)).1⟩

/-- C3: for a state-test consume whose child exits 0, standard output
parsing as a JSON array makes `consume` return exactly that array, and a
parsed top-level value that is not an array makes it raise the
result-parse error carrying that value. -/
theorem statetest_success_parse :
    ∀ (binary fixturePath : String) (debugOutputPath : Option String)
      (runCommand : List String → CompletedProcess)
      (jsonLoads : String → Option JsonValue) (fixtureContent : String),
    (runCommand (gethStatetestCommand binary fixturePath debugOutputPath)).returncode = 0 →
    (∀ xs, jsonLoads (runCommand
          (gethStatetestCommand binary fixturePath debugOutputPath)).stdout
        = some (.arr xs) →
      (gethStatetestConsume binary fixturePath debugOutputPath runCommand
          jsonLoads fixtureContent).outcome = .ok (.arr xs))
    ∧ (∀ v, jsonLoads (runCommand
          (gethStatetestCommand binary fixturePath debugOutputPath)).stdout
        = some v →
      (∀ xs, v ≠ .arr xs) →
      (gethStatetestConsume binary fixturePath debugOutputPath runCommand
          jsonLoads fixtureContent).outcome = .error (.resultParse v)) := by
  intro binary fixturePath debugOutputPath runCommand jsonLoads fixtureContent h
  constructor
  · intro xs hparse
    simp [gethStatetestConsume, h, hparse]
  · intro v hparse hne
    cases v with
    | arr xs => exact absurd rfl (hne xs)
    | null => simp [gethStatetestConsume, h, hparse]
    | bool b => simp [gethStatetestConsume, h, hparse]
    | num n => simp [gethStatetestConsume, h, hparse]
    | str s => simp [gethStatetestConsume, h, hparse]
    | obj fields => simp [gethStatetestConsume, h, hparse]

/-- Witness for C3: with exit code 0, a parsed array is returned as is,
and a parsed object raises the result-parse error. -/
theorem statetest_success_parse_witness :
    (gethStatetestConsume "evm" "t.json" none runPass loadsArr "{}").outcome
      = .ok (.arr [.str "t1"])
    ∧ (gethStatetestConsume "evm" "t.json" none runPass loadsObj "{}").outcome
      = .error (.resultParse (.obj [])) := by
  refine ⟨(statetest_success_parse "evm" "t.json" none runPass loadsArr "{}"
      (by decide)).1 _ rfl, ?_⟩
  exact (statetest_success_parse "evm" "t.json" none runPass loadsObj "{}"
      (by decide)).2 _ rfl (fun xs hx => JsonValue.noConfusion hx)

/-- C4: for a chain-test consume whose child exits 0, `consume` returns
the empty outcome, and the outcome is the same for any two child
processes that exit 0 whatever they print. -/
theorem blocktest_success_empty_outcome :
    ∀ (binary fixturePath : String) (fixtureName : Option String)
      (debugOutputPath : Option String)
      (runCommand : List String → CompletedProcess) (fixtureContent : String),
    ((runCommand (gethBlocktestCommand binary fixturePath fixtureName
        debugOutputPath)).returncode = 0 →
      (gethBlocktestConsume binary fixturePath fixtureName debugOutputPath
        runCommand fixtureContent).outcome = .ok (.arr []))
    ∧ (∀ (runCommand2 : List String → CompletedProcess),
      (runCommand (gethBlocktestCommand binary fixturePath fixtureName
        debugOutputPath)).returncode = 0 →
      (runCommand2 (gethBlocktestCommand binary fixturePath fixtureName
        debugOutputPath)).returncode = 0 →
      (gethBlocktestConsume binary fixturePath fixtureName debugOutputPath
        runCommand fixtureContent).outcome
        = (gethBlocktestConsume binary fixturePath fixtureName debugOutputPath
          runCommand2 fixtureContent).outcome) := by
  intro binary fixturePath fixtureName debugOutputPath runCommand fixtureContent
  constructor
  · intro h
    simp [gethBlocktestConsume, h]
  · intro runCommand2 h1 h2
    simp [gethBlocktestConsume, h1, h2]

/-- Witness for C4: a child exiting 0 yields the empty outcome for the
chain-test variant. -/
theorem blocktest_success_empty_outcome_witness :
    (gethBlocktestConsume "evm" "t.json" none none runPass "{}").outcome
      = .ok (.arr []) := by
  exact (blocktest_success_empty_outcome "evm" "t.json" none none runPass "{}").1
    (by decide)

/-- The chain-test runner spawns exactly the command it builds. -/
theorem gethBlocktestConsume_spawned (binary fixturePath : String)
    (fixtureName : Option String) (debugOutputPath : Option String)
    (runCommand : List String → CompletedProcess) (fixtureContent : String) :
    (gethBlocktestConsume binary fixturePath fixtureName debugOutputPath
      runCommand fixtureContent).spawned
    = [gethBlocktestCommand binary fixturePath fixtureName debugOutputPath] := by
  simp only [gethBlocktestConsume]
  split <;> rfl

/-- The `--run` token occurs in a built chain-test command exactly when a
case name was passed, provided neither the binary nor the fixture path is
itself the literal token. -/
theorem run_mem_gethBlocktestCommand (binary fixturePath : String)
    (fixtureName : Option String) (debugOutputPath : Option String)
    (hb : binary ≠ "--run") (hp : fixturePath ≠ "--run") :
    ("--run" ∈ gethBlocktestCommand binary fixturePath fixtureName debugOutputPath
      ↔ fixtureName.isSome = true) := by
  have hb2 : ¬ ("--run" = binary) := fun e => hb e.symm
  have hp2 : ¬ ("--run" = fixturePath) := fun e => hp e.symm
  cases fixtureName <;> cases debugOutputPath <;>
    simp [gethBlocktestCommand, blocktestSubcommand, hb2, hp2]

/-- C5: in the direct-consume pipeline the chain-test case filter is
added exactly when the caller supplies a case name and the probed help
text advertises `--run`; when support is not advertised the name is
silently dropped and the whole run is identical to a run with no name. -/
theorem blocktest_run_filter :
    ∀ (binary helpString fixturePath : String) (caseName : Option String)
      (debugOutputPath : Option String)
      (runCommand : List String → CompletedProcess) (fixtureContent : String),
    binary ≠ "--run" → fixturePath ≠ "--run" →
    (∀ cmd ∈ (directBlocktestConsume binary helpString fixturePath caseName
        debugOutputPath runCommand fixtureContent).spawned,
      ("--run" ∈ cmd ↔ (caseName.isSome = true ∧ runSingleTest helpString = true)))
    ∧ (runSingleTest helpString = false →
      directBlocktestConsume binary helpString fixturePath caseName debugOutputPath
        runCommand fixtureContent
      = directBlocktestConsume binary helpString fixturePath none debugOutputPath
        runCommand fixtureContent) := by
  intro binary helpString fixturePath caseName debugOutputPath runCommand
    fixtureContent hb hp
  constructor
  · intro cmd hcmd
    rw [directBlocktestConsume, gethBlocktestConsume_spawned] at hcmd
    rw [List.mem_singleton] at hcmd
    subst hcmd
    rw [run_mem_gethBlocktestCommand binary fixturePath _ debugOutputPath hb hp]
    cases hrun : runSingleTest helpString <;> cases caseName <;> simp [hrun]
  · intro hfalse
    simp [directBlocktestConsume, hfalse]

/-- Witness for C5: with a help text advertising `--run` and a supplied
case name, the built command contains the filter token. -/
theorem blocktest_run_filter_witness :
    "--run" ∈ gethBlocktestCommand "evm" "t.json" (some "case1") none := by
  have h := blocktest_run_filter "evm" "usage: evm blocktest --run <test>" "t.json"
    (some "case1") none runPass "{}" (by decide) (by decide)
  exact (h.1 (gethBlocktestCommand "evm" "t.json" (some "case1") none)
    (by decide)).mpr (by decide)

/-- C6: dispatching a format with no configured binary role or no
implemented runner raises the unsupported-format error and spawns no
child process; the object-format (EOF) format always fails this way. -/
theorem consume_fixture_unsupported :
    (∀ (binary : String) (fmt : FixtureFormat) (fixturePath : String)
       (fixtureName : Option String) (debugOutputPath : Option String)
       (runCommand : List String → CompletedProcess)
       (jsonLoads : String → Option JsonValue) (fixtureContent : String),
      (is_consumable (gethConsumerConfig binary) fmt = false
        ∨ fmt ∉ gethImplementedFormats) →
      (gethConsumeFixture binary fmt fixturePath fixtureName debugOutputPath
          runCommand jsonLoads fixtureContent).outcome
        = .error (.unsupportedFormat fmt)
      ∧ (gethConsumeFixture binary fmt fixturePath fixtureName debugOutputPath
          runCommand jsonLoads fixtureContent).spawned = [])
    ∧ (∀ (binary fixturePath : String) (fixtureName : Option String)
       (debugOutputPath : Option String)
       (runCommand : List String → CompletedProcess)
       (jsonLoads : String → Option JsonValue) (fixtureContent : String),
      (gethConsumeFixture binary .eofFixture fixturePath fixtureName debugOutputPath
          runCommand jsonLoads fixtureContent).outcome
        = .error (.unsupportedFormat .eofFixture)
      ∧ (gethConsumeFixture binary .eofFixture fixturePath fixtureName debugOutputPath
          runCommand jsonLoads fixtureContent).spawned = []) := by
  constructor
  · intro binary fmt fixturePath fixtureName debugOutputPath runCommand jsonLoads
      fixtureContent h
    cases fmt with
    | stateFixture =>
      rcases h with h | h
      · simp [is_consumable, gethConsumerConfig] at h
      · exact absurd (by decide) h
    | blockchainFixture =>
      rcases h with h | h
      · simp [is_consumable, gethConsumerConfig] at h
      · exact absurd (by decide) h
    | blockchainEngineFixture => exact ⟨rfl, rfl⟩
    | eofFixture => exact ⟨rfl, rfl⟩
  · intro binary fixturePath fixtureName debugOutputPath runCommand jsonLoads
      fixtureContent
    exact ⟨rfl, rfl⟩

/-- Witness for C6: the EOF format, whose binary role is unset in the
geth consumer configuration, dispatches to the unsupported-format error
with nothing spawned. -/
theorem consume_fixture_unsupported_witness :
    (gethConsumeFixture "evm" .eofFixture "t.json" none none runPass loadsNone
      "{}").outcome = .error (.unsupportedFormat .eofFixture)
    ∧ (gethConsumeFixture "evm" .eofFixture "t.json" none none runPass loadsNone
      "{}").spawned = [] :=
  consume_fixture_unsupported.1 "evm" .eofFixture "t.json" none none runPass
    loadsNone "{}" (Or.inl (by decide))

/-- C7: a format is consumable exactly when the binary role matching it
was configured, and no format outside the three roles is consumable. -/
theorem is_consumable_iff_role_configured :
    ∀ (c : FixtureConsumerConfig) (fmt : FixtureFormat),
    is_consumable c fmt = true ↔
      ((fmt = .stateFixture ∧ c.statetest_binary.isSome = true)
       ∨ (fmt = .blockchainFixture ∧ c.blocktest_binary.isSome = true)
       ∨ (fmt = .eofFixture ∧ c.eoftest_binary.isSome = true)) := by
  intro c fmt
  cases fmt <;> simp [is_consumable]

/-- C8: both built command lines are, in order, the binary, the debug
flags exactly when a debug directory is requested, the subcommand, the
optional chain-test case filter, and the fixture path last; with no
debug directory no debug flag appears. -/
theorem consume_command_structure :
    ∀ (binary fixturePath : String) (fixtureName : Option String)
      (debugOutputPath : Option String),
    gethStatetestCommand binary fixturePath debugOutputPath
      = [binary]
        ++ (match debugOutputPath with
            | some _ => ["--debug", "--json", "--verbosity", "100"]
            | none => [])
        ++ [statetestSubcommand] ++ [fixturePath]
    ∧ gethBlocktestCommand binary fixturePath fixtureName debugOutputPath
      = [binary]
        ++ (match debugOutputPath with
            | some _ => ["--debug", "--json", "--verbosity", "100"]
            | none => [])
        ++ [blocktestSubcommand]
        ++ (match fixtureName with
            | some name => ["--run", name]
            | none => [])
        ++ [fixturePath]
    ∧ (debugOutputPath = none →
        gethStatetestCommand binary fixturePath debugOutputPath
          = [binary, statetestSubcommand, fixturePath]
        ∧ gethBlocktestCommand binary fixturePath none debugOutputPath
          = [binary, blocktestSubcommand, fixturePath]) := by
  intro binary fixturePath fixtureName debugOutputPath
  refine ⟨?_, ?_, ?_⟩
  · cases debugOutputPath <;> rfl
  · cases debugOutputPath <;> cases fixtureName <;> rfl
  · intro hd
    subst hd
    exact ⟨rfl, rfl⟩

/-- Witness for C8: without a debug directory both commands are the bare
binary, subcommand and fixture path. -/
theorem consume_command_structure_witness :
    gethStatetestCommand "evm" "t.json" none = ["evm", "statetest", "t.json"]
    ∧ gethBlocktestCommand "evm" "t.json" none none
      = ["evm", "blocktest", "t.json"] :=
  (consume_command_structure "evm" "t.json" none none).2.2 rfl

/-- C9: with a debug directory set, both variants write the debug bundle
whatever the exit code, and the bundle holds the reproduction script, the
exit code, the captured standard output, the captured standard error and
a byte-identical copy of the fixture file. -/
theorem debug_bundle_written :
    ∀ (binary fixturePath : String) (fixtureName : Option String) (dir : String)
      (runCommand : List String → CompletedProcess)
      (jsonLoads : String → Option JsonValue) (fixtureContent : String),
    (gethStatetestConsume binary fixturePath (some dir) runCommand jsonLoads
        fixtureContent).debugDump
      = some (consumeDebugDump (gethStatetestCommand binary fixturePath (some dir))
          (runCommand (gethStatetestCommand binary fixturePath (some dir)))
          fixtureContent dir)
    ∧ (gethBlocktestConsume binary fixturePath fixtureName (some dir) runCommand
        fixtureContent).debugDump
      = some (consumeDebugDump
          (gethBlocktestCommand binary fixturePath fixtureName (some dir))
          (runCommand (gethBlocktestCommand binary fixturePath fixtureName (some dir)))
          fixtureContent dir)
    ∧ (∀ (command : List String) (result : CompletedProcess),
        ((consumeDebugDump command result fixtureContent dir).lookup
          "consume_direct.sh+x").isSome = true
        ∧ (consumeDebugDump command result fixtureContent dir).lookup
            "consume_direct_args.py" = some (.args command)
        ∧ (consumeDebugDump command result fixtureContent dir).lookup
            "consume_direct_returncode.txt" = some (.code result.returncode)
        ∧ (consumeDebugDump command result fixtureContent dir).lookup
            "consume_direct_stdout.txt" = some (.text result.stdout)
        ∧ (consumeDebugDump command result fixtureContent dir).lookup
            "consume_direct_stderr.txt" = some (.text result.stderr)
        ∧ (consumeDebugDump command result fixtureContent dir).lookup
            "fixtures.json" = some (.text fixtureContent)) := by
  intro binary fixturePath fixtureName dir runCommand jsonLoads fixtureContent
  refine ⟨?_, ?_, fun command result => ⟨rfl, rfl, rfl, rfl, rfl, rfl⟩⟩
  · simp only [gethStatetestConsume]
    split
    · rfl
    · split <;> rfl
  · simp only [gethBlocktestConsume]
    split <;> rfl

/-- C10: the supplied fixture name is discarded for the state-test
format: dispatch through the consumer yields identical runs (same
command, same debug dump, same outcome) for any two name arguments. -/
theorem statetest_name_no_effect :
    ∀ (binary fixturePath : String) (name1 name2 : Option String)
      (debugOutputPath : Option String)
      (runCommand : List String → CompletedProcess)
      (jsonLoads : String → Option JsonValue) (fixtureContent : String),
    gethConsumeFixture binary .stateFixture fixturePath name1 debugOutputPath
      runCommand jsonLoads fixtureContent
    = gethConsumeFixture binary .stateFixture fixturePath name2 debugOutputPath
      runCommand jsonLoads fixtureContent :=
  fun _ _ _ _ _ _ _ _ => rfl
